import Mathlib

/-!
Verification development for the `mastodonlm` serverless list-manager
(`handler.py`).  The handlers are embedded shallowly:

* Python dictionaries become insertion-ordered association lists with
  overwrite-on-insert semantics (`pyInsert` / `pyGet`).
* Python exceptions become an explicit `PyExc` type; a handler returns
  `Except PyExc Ret` (an uncaught exception is `Except.error`).
  The relevant part of the `mastodon.py` exception hierarchy is:
  `MastodonUnauthorizedError < MastodonClientError < MastodonAPIError`,
  `MastodonInternalServerError < MastodonServerError < MastodonAPIError`,
  while `MastodonIllegalArgumentError` derives from `ValueError` and
  `MastodonError` but is NOT a `MastodonAPIError`.
* The remote Mastodon client is an oracle (`Api`): a structure giving the
  outcome of every remote call the handlers make.  Every call a handler
  performs (session-store reads/writes and remote calls) is recorded in a
  trace of `Call` values, so "performs no remote call" and "writes the
  store exactly once" are statements about that trace.
* `uuid.uuid4().urn` is modelled by an explicit `freshCookie` argument.
* The wall clock (the `expires_at` attribute written by `Database.set`)
  is outside the model; the stored entry keeps the token and domain,
  exactly the fields `Database.get` reads back.
* `get_all`'s unbounded `while True` loop is modelled with explicit fuel;
  running out of fuel yields `none`.  Inside `info`, the two `get_all`
  drains appear as the already-drained oracle fields
  `Api.account_following` / `Api.list_accounts`; the draining loop itself
  is verified separately on `get_all`.
-/

deriving instance DecidableEq for Except

/-- Python exceptions that can reach a handler boundary. -/
inductive PyExc
  | mastodonIllegalArgument
  | mastodonInternalServer
  | mastodonUnauthorized
  | mastodonAPIOther
  | keyError (key : String)
  | valueError
deriving DecidableEq, Repr

/-- Whether an exception is (a subclass of) `MastodonAPIError`. -/
def isMastodonAPIError : PyExc → Bool
  | .mastodonInternalServer => true
  | .mastodonUnauthorized => true
  | .mastodonAPIOther => true
  | _ => false

/-- Split a list of characters at every occurrence of `sep`, keeping empty
segments — the semantics of Python's `str.split` with a one-character
separator. -/
def splitChar (sep : Char) : List Char → List (List Char)
  | [] => [[]]
  | c :: rest =>
    match splitChar sep rest with
    | [] => if c = sep then [[], []] else [[c]]
    | h :: t => if c = sep then [] :: h :: t else (c :: h) :: t

/-- Python `s.split(sep)` for a one-character separator. -/
def pySplit (sep : Char) (s : String) : List String :=
  (splitChar sep s.data).map String.mk

/-- Python `s[-n:]`: the last `n` characters (the whole string if shorter). -/
def pyLastN (n : Nat) (s : String) : String :=
  String.mk (s.data.drop (s.data.length - n))

/-- Python dict lookup `d.get(k)` on an insertion-ordered assoc list. -/
def pyGet {α β : Type} [BEq α] (m : List (α × β)) (k : α) : Option β :=
  (m.find? (fun p => p.1 == k)).map (fun p => p.2)

/-- Python dict store `d[k] = v`: overwrite in place if the key exists,
otherwise append (insertion order preserved). -/
def pyInsert {α β : Type} [BEq α] (m : List (α × β)) (k : α) (v : β) :
    List (α × β) :=
  if m.any (fun p => p.1 == k) then
    m.map (fun p => if p.1 == k then (k, v) else p)
  else m ++ [(k, v)]

/-- `parse_cookies` (handler.py:61-68).  For each cookie string the code runs
`arr = cookie.split(";")` and then `(name, val) = arr[0].split("=")`; the
tuple unpacking demands that the first `;`-segment split on `=` into exactly
two pieces, and raises `ValueError` otherwise (in particular when the value
itself contains an `=`). -/
def parse_cookies (cookies : List String) :
    Except PyExc (List (String × String)) :=
  cookies.foldlM
    (fun res cookie =>
      let arr := pySplit ';' cookie
      match pySplit '=' (arr.headD "") with
      | [name, val] => Except.ok (pyInsert res name val)
      | _ => Except.error PyExc.valueError)
    []

/-- A stored session entry (the fields `Database.get` reads). -/
structure DbEntry where
  token : String
  domain : String
deriving DecidableEq, Repr

/-- The DynamoDB-backed session store. -/
abbrev Store := List (String × DbEntry)

/-- `Database.get` (handler.py:31-44). -/
def Database.get (store : Store) (cookie : String) : Option DbEntry :=
  pyGet store cookie

/-- `Database.set` (handler.py:46-58); `put_item` overwrites an existing
item with the same key. -/
def Database.set (store : Store) (cookie token domain : String) : Store :=
  pyInsert store cookie ⟨token, domain⟩

/-- A Mastodon account dict, restricted to the fields the handlers touch;
`following_count` stands for the extra fields a real response carries,
which the `info` reduction drops. -/
structure Account where
  id : Nat
  display_name : String
  username : String
  acct : String
  note : String
  avatar : String
  following_count : Nat
deriving DecidableEq, Repr

/-- A Mastodon list dict (`{id, title}`). -/
structure MList where
  id : Nat
  title : String
deriving DecidableEq, Repr

/-- One entry of the `info` output's follower list: exactly the keys
`["id", "lists", "display_name", "username", "acct", "note", "avatar"]`
selected at handler.py:148-162, with `id` stringified. -/
structure OutPerson where
  id : String
  lists : List Nat
  display_name : String
  username : String
  acct : String
  note : String
  avatar : String
deriving DecidableEq, Repr

/-- The `meinfo` summary built at handler.py:166-170. -/
structure MeInfo where
  username : String
  acct : String
  display_name : String
deriving DecidableEq, Repr

/-- The successful `info` output object (handler.py:171). -/
structure InfoOutput where
  lists : List MList
  followers : List OutPerson
  me : MeInfo
deriving DecidableEq, Repr

/-- A JSON-serialisable response body; `json.dumps` is modelled as an
injective constructor rather than as a string. -/
inductive Body
  | jsonStatus (status : String)
  | jsonUrl (url : String)
  | jsonInfo (out : InfoOutput)
  | text (s : String)
deriving DecidableEq, Repr

/-- The `{statusCode, body}` response dict. -/
structure Response where
  statusCode : Nat
  body : Body
deriving DecidableEq, Repr

/-- What a handler returns: a response dict, a response dict with extra
headers (`callback`), or — as `info` does on success at handler.py:172 —
a bare JSON string. -/
inductive Ret
  | resp (r : Response)
  | respH (r : Response) (headers : List (String × String))
  | str (b : Body)
deriving DecidableEq, Repr

/-- `response` (handler.py:175-179).  The Python default
`statusCode=200` is passed explicitly at every call site here. -/
def response (body : Body) (statusCode : Nat) : Ret :=
  Ret.resp ⟨statusCode, body⟩

/-- The calls a handler performs against the session store and the remote
API, in order. -/
inductive Call
  | dbGet (cookie : String)
  | dbSet (cookie : String) (token : String) (domain : String)
  | meCall
  | accountFollowing (id : Nat)
  | listsCall
  | listAccounts (list_id : Nat)
  | listCreate (name : String)
  | listDelete (list_id : String)
  | listAccountsAdd (list_id : String) (account_ids : List String)
  | listAccountsDelete (list_id : String) (account_ids : List String)
  | authRequestUrl (redirect : String)
  | logIn (code : String) (redirect : String)
deriving DecidableEq, Repr

/-- The remote-API oracle: the outcome of every call a handler can make.
`account_following` and `list_accounts` are the page-drained results of
the corresponding `get_all` loops.  `Option PyExc` outcomes mean
"`none` = success". -/
structure Api where
  me : Except PyExc Account
  account_following : Nat → Except PyExc (List Account)
  lists : Except PyExc (List MList)
  list_accounts : Nat → Except PyExc (List Account)
  list_create : String → Option PyExc
  list_delete : String → Option PyExc
  list_accounts_add : String → List String → Option PyExc
  list_accounts_delete : String → List String → Option PyExc
  auth_request_url : String → String
  log_in : String → String → Except PyExc String

/-- An incoming event.  A missing top-level key (`cookies`,
`headers`, `queryStringParameters`) is `none`; subscripting a missing key
raises `KeyError`, while `event.get("cookies", [])` defaults it. -/
structure Event where
  cookies : Option (List String)
  headers : Option (List (String × String))
  queryStringParameters : Option (List (String × String))
deriving Repr

/-- `event["headers"][k]` with `KeyError` on a missing key. -/
def headerGet (event : Event) (k : String) : Except PyExc String :=
  match event.headers with
  | none => Except.error (PyExc.keyError "headers")
  | some hs =>
    match pyGet hs k with
    | none => Except.error (PyExc.keyError k)
    | some v => Except.ok v

/-- `event["queryStringParameters"][k]` with `KeyError` on a missing key. -/
def qspGet (event : Event) (k : String) : Except PyExc String :=
  match event.queryStringParameters with
  | none => Except.error (PyExc.keyError "queryStringParameters")
  | some qs =>
    match pyGet qs k with
    | none => Except.error (PyExc.keyError k)
    | some v => Except.ok v

example : parse_cookies ["list-manager-cookie=abc; Path=x", "n=v"] =
    Except.ok [("list-manager-cookie", "abc"), ("n", "v")] := by decide

example : parse_cookies ["a=b=c"] = Except.error PyExc.valueError := by decide

/-- One page returned by a paginated Mastodon endpoint: the list contents
plus the `_pagination_next` attribute (`none` models the attribute being
absent, in which case accessing it raises `AttributeError`).  The cursor
is the `max_id` value embedded in `_pagination_next`. -/
structure Page (α : Type) where
  items : List α
  pagination_next : Option Nat
deriving DecidableEq, Repr

/-- `get_all`'s loop body (handler.py:86-96), with fuel for the unbounded
`while True`.  Alongside the accumulated items it records, per invocation
of `func`, the `max_id` argument passed (`none` for the initial call). -/
def get_all_go {α : Type} (func : Option Nat → Page α) :
    Nat → Page α → List α → List (Option Nat) →
    Option (List α × List (Option Nat))
  | 0, _, _, _ => none
  | fuel + 1, page, res, calls =>
    let res2 := res ++ page.items
    match page.pagination_next with
    | none => some (res2, calls)
    | some c => get_all_go func fuel (func (some c)) res2 (calls ++ [some c])

/-- `get_all` (handler.py:83-96): drain a paginated fetch, returning all
items in order together with the argument trace of the fetch calls. -/
def get_all {α : Type} (func : Option Nat → Page α) (fuel : Nat) :
    Option (List α × List (Option Nat)) :=
  get_all_go func fuel (func none) [] [none]

/-- `func` yields exactly this page sequence: every page but the last
carries a cursor, the last carries none, and calling `func` with a page's
cursor produces the next page. -/
def chainOk {α : Type} (func : Option Nat → Page α) : List (Page α) → Prop
  | [] => True
  | [p] => p.pagination_next = none
  | p :: q :: rest =>
    p.pagination_next.isSome = true ∧ func p.pagination_next = q ∧
      chainOk func (q :: rest)

/-- `make_redirect_url` (handler.py:182-187). -/
def make_redirect_url (event : Event) : Except PyExc String :=
  match headerGet event "origin" with
  | Except.error e => Except.error e
  | Except.ok origin =>
    if origin = "http://localhost:3000" then
      Except.ok "http://localhost:3000/callback"
    else
      Except.ok "https://acbeers.github.io/mastodonlm/callback"

/-- `make_cookie_options` (handler.py:190-195). -/
def make_cookie_options (event : Event) : Except PyExc String :=
  match headerGet event "host" with
  | Except.error e => Except.error e
  | Except.ok host =>
    if pyLastN 13 host = "amazonaws.com" then
      Except.ok "Domain=amazonaws.com; SameSite=None; Secure; "
    else
      Except.ok "Domain=localhost; "

/-- The `followermap` comprehension `{x["id"]: x for x in followers}`
(handler.py:129), as a dict from account id to the *position* of the dict
object in `followers` (dict values are references; for a duplicated id the
later entry wins). -/
def buildMapFrom (m : List (Nat × Nat)) (i : Nat) :
    List Account → List (Nat × Nat)
  | [] => m
  | x :: rest => buildMapFrom (pyInsert m x.id i) (i + 1) rest

/-- Dict from follower id to position in `followers`. -/
def buildMap (followers : List Account) : List (Nat × Nat) :=
  buildMapFrom [] 0 followers

/-- The body of the membership loop (handler.py:135-141): if the member id
is a followed account, append the list id to that account's `lists` field
(held positionally); otherwise silently ignore it. -/
def joinStep (fmap : List (Nat × Nat)) (st : List (List Nat))
    (aid : Nat) (lid : Nat) : List (List Nat) :=
  match pyGet fmap aid with
  | some i => st.set i (st.getD i [] ++ [lid])
  | none => st

/-- The `for l in lists` loop of `info` (handler.py:133-141): fetch each
list's drained membership and fold it into the per-follower `lists`
state, recording the remote calls made.  A fetch error aborts the loop
and propagates. -/
def listsLoop (api : Api) (fmap : List (Nat × Nat)) :
    List MList → List (List Nat) →
    Except PyExc (List (List Nat)) × List Call
  | [], st => (Except.ok st, [])
  | l :: rest, st =>
    match api.list_accounts l.id with
    | Except.error e => (Except.error e, [Call.listAccounts l.id])
    | Except.ok accts =>
      let st2 := accts.foldl (fun s acct => joinStep fmap s acct.id l.id) st
      let r := listsLoop api fmap rest st2
      (r.1, Call.listAccounts l.id :: r.2)

/-- `info` (handler.py:99-172). -/
def info (store : Store) (api : Api) (event : Event) :
    Except PyExc Ret × List Call :=
  match parse_cookies (event.cookies.getD []) with
  | Except.error e => (Except.error e, [])
  | Except.ok cdict =>
  match pyGet cdict "list-manager-cookie" with
  | none => (Except.ok (response (Body.jsonStatus "no_cookie") 403), [])
  | some cookie =>
  match api.me with
  | Except.error PyExc.mastodonIllegalArgument =>
    (Except.ok (Ret.resp ⟨500, Body.text "ERROR"⟩),
     [Call.dbGet cookie, Call.meCall])
  | Except.error PyExc.mastodonInternalServer =>
    (Except.ok (Ret.resp ⟨500, Body.text "ERROR"⟩),
     [Call.dbGet cookie, Call.meCall])
  | Except.error PyExc.mastodonUnauthorized =>
    (Except.ok (response (Body.jsonStatus "no_cookie") 403),
     [Call.dbGet cookie, Call.meCall])
  | Except.error e => (Except.error e, [Call.dbGet cookie, Call.meCall])
  | Except.ok me =>
  match api.account_following me.id with
  | Except.error e =>
    (Except.error e,
     [Call.dbGet cookie, Call.meCall, Call.accountFollowing me.id])
  | Except.ok followers =>
  match api.lists with
  | Except.error e =>
    (Except.error e,
     [Call.dbGet cookie, Call.meCall, Call.accountFollowing me.id,
      Call.listsCall])
  | Except.ok lists =>
  let fmap := buildMap followers
  let st0 : List (List Nat) := followers.map (fun _ => [])
  match listsLoop api fmap lists st0 with
  | (Except.error e, calls) =>
    (Except.error e,
     [Call.dbGet cookie, Call.meCall, Call.accountFollowing me.id,
      Call.listsCall] ++ calls)
  | (Except.ok st, calls) =>
    let outlists := lists
    let outpeople := (followers.zip st).map (fun p =>
      OutPerson.mk (toString p.1.id) p.2 p.1.display_name p.1.username
        p.1.acct p.1.note p.1.avatar)
    let dbinfo := Database.get store cookie
    let domain := match dbinfo with
      | none => ""
      | some i => i.domain
    let meinfo := MeInfo.mk me.username (me.acct ++ "@" ++ domain)
      me.display_name
    (Except.ok (Ret.str (Body.jsonInfo ⟨outlists, outpeople, meinfo⟩)),
     [Call.dbGet cookie, Call.meCall, Call.accountFollowing me.id,
      Call.listsCall] ++ calls ++ [Call.dbGet cookie])

/-- The tail of `auth` after the already-logged-in check fails or is
skipped (handler.py:217-231): build the redirect URL, request the
authorization URL, return it with the default 200 status. -/
def authFallthrough (api : Api) (event : Event) (log : List Call) :
    Except PyExc Ret × List Call :=
  match make_redirect_url event with
  | Except.error e => (Except.error e, log)
  | Except.ok redirect_url =>
    let url := api.auth_request_url redirect_url
    (Except.ok (response (Body.jsonUrl url) 200),
     log ++ [Call.authRequestUrl redirect_url])

/-- `auth` (handler.py:198-231).  With a cookie present, a successful
`me()` short-circuits with `{"status": "OK"}`; a `MastodonAPIError`
(which covers unauthorized) drops through to the OAuth flow; any other
exception propagates. -/
def auth (store : Store) (api : Api) (event : Event) :
    Except PyExc Ret × List Call :=
  match parse_cookies (event.cookies.getD []) with
  | Except.error e => (Except.error e, [])
  | Except.ok cdict =>
    match pyGet cdict "list-manager-cookie" with
    | some cookie =>
      (match api.me with
       | Except.ok _ =>
         (Except.ok (Ret.resp ⟨200, Body.jsonStatus "OK"⟩),
          [Call.dbGet cookie, Call.meCall])
       | Except.error e =>
         if isMastodonAPIError e then
           authFallthrough api event [Call.dbGet cookie, Call.meCall]
         else (Except.error e, [Call.dbGet cookie, Call.meCall]))
    | none => authFallthrough api event []

/-- `callback` (handler.py:234-260).  `freshCookie` stands for
`uuid.uuid4().urn`; `60*60*24 = 86400`. -/
def callback (store : Store) (api : Api) (event : Event)
    (freshCookie : String) : Except PyExc Ret × List Call :=
  match qspGet event "code" with
  | Except.error e => (Except.error e, [])
  | Except.ok code =>
  match make_redirect_url event with
  | Except.error e => (Except.error e, [])
  | Except.ok redirect_url =>
  match make_cookie_options event with
  | Except.error e => (Except.error e, [])
  | Except.ok cookie_options =>
  match api.log_in code redirect_url with
  | Except.error e => (Except.error e, [Call.logIn code redirect_url])
  | Except.ok token =>
    let cookie := freshCookie
    let cookie_str := cookie ++ "; " ++ cookie_options ++ " Max-Age=86400"
    (Except.ok (Ret.respH ⟨200, Body.jsonStatus "OK"⟩
       [("Set-Cookie", "list-manager-cookie=" ++ cookie_str)]),
     [Call.logIn code redirect_url,
      Call.dbSet cookie token "hachyderm.io"])

/-- `add_to_list` (handler.py:263-292).  Note `event["cookies"]` (not
`.get`): a missing `cookies` key raises `KeyError`.  The `try` around
`get_mastodon` catches `MastodonIllegalArgumentError` /
`MastodonInternalServerError`, but `get_mastodon` only reads the store
and constructs the client, raising neither, so that handler branch is
unreachable and the store read is recorded directly. -/
def add_to_list (store : Store) (api : Api) (event : Event) :
    Except PyExc Ret × List Call :=
  match event.cookies with
  | none => (Except.error (PyExc.keyError "cookies"), [])
  | some cookieList =>
  match parse_cookies cookieList with
  | Except.error e => (Except.error e, [])
  | Except.ok cdict =>
  match pyGet cdict "list-manager-cookie" with
  | none => (Except.ok (response (Body.jsonStatus "no_cookie") 403), [])
  | some cookie =>
  match qspGet event "list_id" with
  | Except.error e => (Except.error e, [Call.dbGet cookie])
  | Except.ok lid =>
  match qspGet event "account_id" with
  | Except.error e => (Except.error e, [Call.dbGet cookie])
  | Except.ok accountid =>
  match api.list_accounts_add lid [accountid] with
  | none =>
    (Except.ok (response (Body.text "OK") 200),
     [Call.dbGet cookie, Call.listAccountsAdd lid [accountid]])
  | some e =>
    if isMastodonAPIError e then
      (Except.ok (response (Body.text "ERROR") 500),
       [Call.dbGet cookie, Call.listAccountsAdd lid [accountid]])
    else
      (Except.error e,
       [Call.dbGet cookie, Call.listAccountsAdd lid [accountid]])

/-- `remove_from_list` (handler.py:295-324). -/
def remove_from_list (store : Store) (api : Api) (event : Event) :
    Except PyExc Ret × List Call :=
  match event.cookies with
  | none => (Except.error (PyExc.keyError "cookies"), [])
  | some cookieList =>
  match parse_cookies cookieList with
  | Except.error e => (Except.error e, [])
  | Except.ok cdict =>
  match pyGet cdict "list-manager-cookie" with
  | none => (Except.ok (response (Body.jsonStatus "no_cookie") 403), [])
  | some cookie =>
  match qspGet event "list_id" with
  | Except.error e => (Except.error e, [Call.dbGet cookie])
  | Except.ok lid =>
  match qspGet event "account_id" with
  | Except.error e => (Except.error e, [Call.dbGet cookie])
  | Except.ok accountid =>
  match api.list_accounts_delete lid [accountid] with
  | none =>
    (Except.ok (response (Body.text "OK") 200),
     [Call.dbGet cookie, Call.listAccountsDelete lid [accountid]])
  | some e =>
    if isMastodonAPIError e then
      (Except.ok (response (Body.text "ERROR") 500),
       [Call.dbGet cookie, Call.listAccountsDelete lid [accountid]])
    else
      (Except.error e,
       [Call.dbGet cookie, Call.listAccountsDelete lid [accountid]])

/-- `create_list` (handler.py:327-350). -/
def create_list (store : Store) (api : Api) (event : Event) :
    Except PyExc Ret × List Call :=
  match event.cookies with
  | none => (Except.error (PyExc.keyError "cookies"), [])
  | some cookieList =>
  match parse_cookies cookieList with
  | Except.error e => (Except.error e, [])
  | Except.ok cdict =>
  match pyGet cdict "list-manager-cookie" with
  | none => (Except.ok (response (Body.jsonStatus "no_cookie") 403), [])
  | some cookie =>
  match qspGet event "list_name" with
  | Except.error e => (Except.error e, [Call.dbGet cookie])
  | Except.ok lname =>
  match api.list_create lname with
  | none =>
    (Except.ok (response (Body.text "OK") 200),
     [Call.dbGet cookie, Call.listCreate lname])
  | some e =>
    if isMastodonAPIError e then
      (Except.ok (response (Body.text "ERROR") 500),
       [Call.dbGet cookie, Call.listCreate lname])
    else
      (Except.error e, [Call.dbGet cookie, Call.listCreate lname])

/-- `delete_list` (handler.py:353-376). -/
def delete_list (store : Store) (api : Api) (event : Event) :
    Except PyExc Ret × List Call :=
  match event.cookies with
  | none => (Except.error (PyExc.keyError "cookies"), [])
  | some cookieList =>
  match parse_cookies cookieList with
  | Except.error e => (Except.error e, [])
  | Except.ok cdict =>
  match pyGet cdict "list-manager-cookie" with
  | none => (Except.ok (response (Body.jsonStatus "no_cookie") 403), [])
  | some cookie =>
  match qspGet event "list_id" with
  | Except.error e => (Except.error e, [Call.dbGet cookie])
  | Except.ok lid =>
  match api.list_delete lid with
  | none =>
    (Except.ok (response (Body.text "OK") 200),
     [Call.dbGet cookie, Call.listDelete lid])
  | some e =>
    if isMastodonAPIError e then
      (Except.ok (response (Body.text "ERROR") 500),
       [Call.dbGet cookie, Call.listDelete lid])
    else
      (Except.error e, [Call.dbGet cookie, Call.listDelete lid])

/-- Whether a `Call` is a session-store write. -/
def isDbSet : Call → Bool
  | Call.dbSet _ _ _ => true
  | _ => false

/-- The effect of a call trace on the session store: only `dbSet` entries
change it. -/
def applyCall (store : Store) : Call → Store
  | Call.dbSet k t d => Database.set store k t d
  | _ => store

/-- Replay a call trace against the store. -/
def applyCalls (store : Store) (cs : List Call) : Store :=
  cs.foldl applyCall store

/-- Specification-side membership join: the list ids a follower with id
`fid` accumulates when the lists are processed in order and each member
occurrence of `fid` appends the list's id (`accs l.id` is the drained
membership of list `l`). -/
def listsFor (accs : Nat → List Account) : List MList → Nat → List Nat
  | [], _ => []
  | l :: rest, fid =>
    (((accs l.id).map Account.id).filter (fun a => a == fid)).map
      (fun _ => l.id) ++ listsFor accs rest fid

/-- The field reduction of one follower in the `info` output
(handler.py:148-162), with the joined `lists` value supplied. -/
def reducePerson (x : Account) (ls : List Nat) : OutPerson :=
  ⟨toString x.id, ls, x.display_name, x.username, x.acct, x.note, x.avatar⟩

/-- `domain` as computed at handler.py:164-165: the stored session's
domain, or the empty string when the lookup returns nothing. -/
def domainOf (store : Store) (cookie : String) : String :=
  match Database.get store cookie with
  | none => ""
  | some i => i.domain

/-! ### Dict lemmas -/

theorem pyGet_cons {α β : Type} [BEq α] (p : α × β) (m : List (α × β))
    (k : α) :
    pyGet (p :: m) k = if p.1 == k then some p.2 else pyGet m k := by
  simp only [pyGet, List.find?_cons]
  cases h : p.1 == k <;> simp [h]

theorem pyGet_update_ne {α β : Type} [BEq α] [LawfulBEq α]
    (m : List (α × β)) (k k2 : α) (v : β) (h : ¬k2 = k) :
    pyGet (m.map (fun p => if p.1 == k then (k, v) else p)) k2 =
      pyGet m k2 := by
  induction m with
  | nil => rfl
  | cons p m ih =>
    by_cases hp : (p.1 == k) = true
    · have h1 : (k == k2) = false :=
        beq_eq_false_iff_ne.mpr (fun hh => h hh.symm)
      have hpk : p.1 = k := eq_of_beq hp
      have h2 : (p.1 == k2) = false := by rw [hpk]; exact h1
      simp [List.map_cons, hp, pyGet_cons, h1, h2, ih]
    · simp [List.map_cons, hp, pyGet_cons, ih]

theorem pyGet_update_self {α β : Type} [BEq α] [LawfulBEq α]
    (m : List (α × β)) (k : α) (v : β)
    (hany : m.any (fun p => p.1 == k) = true) :
    pyGet (m.map (fun p => if p.1 == k then (k, v) else p)) k = some v := by
  induction m with
  | nil => cases hany
  | cons p m ih =>
    by_cases hp : (p.1 == k) = true
    · simp [List.map_cons, hp, pyGet_cons]
    · have hm : m.any (fun p => p.1 == k) = true := by
        simpa [hp] using hany
      simp [List.map_cons, hp, pyGet_cons, ih hm]

theorem pyGet_append_single {α β : Type} [BEq α] (m : List (α × β))
    (k k2 : α) (v : β) :
    pyGet (m ++ [(k, v)]) k2 =
      match pyGet m k2 with
      | some w => some w
      | none => if k == k2 then some v else none := by
  induction m with
  | nil => simp [pyGet_cons, pyGet]
  | cons p m ih =>
    cases hp : p.1 == k2 <;> simp [pyGet_cons, hp, ih]

theorem pyGet_eq_none_of_any_false {α β : Type} [BEq α]
    (m : List (α × β)) (k : α)
    (h : m.any (fun p => p.1 == k) = false) : pyGet m k = none := by
  induction m with
  | nil => rfl
  | cons p m ih =>
    simp only [List.any_cons, Bool.or_eq_false_iff] at h
    simp [pyGet_cons, h.1, ih h.2]

theorem pyGet_pyInsert {α β : Type} [BEq α] [LawfulBEq α]
    (m : List (α × β)) (k k2 : α) (v : β) :
    pyGet (pyInsert m k v) k2 = if k2 == k then some v else pyGet m k2 := by
  by_cases hk : (k2 == k) = true
  · have hk' : k2 = k := eq_of_beq hk
    subst hk'
    rw [if_pos hk]
    by_cases hany : m.any (fun p => p.1 == k2) = true
    · unfold pyInsert
      rw [if_pos hany]
      exact pyGet_update_self m k2 v hany
    · have hany' : m.any (fun p => p.1 == k2) = false := by
        simp only [Bool.not_eq_true] at hany
        exact hany
      unfold pyInsert
      rw [if_neg hany, pyGet_append_single,
        pyGet_eq_none_of_any_false m k2 hany']
      simp
  · have hk2 : (k2 == k) = false := by
      simp only [Bool.not_eq_true] at hk
      exact hk
    have hkne : ¬k2 = k := by
      intro hh
      rw [hh] at hk2
      simp at hk2
    rw [if_neg hk]
    by_cases hany : m.any (fun p => p.1 == k) = true
    · unfold pyInsert
      rw [if_pos hany]
      exact pyGet_update_ne m k k2 v hkne
    · unfold pyInsert
      rw [if_neg hany, pyGet_append_single]
      have hkk : (k == k2) = false :=
        beq_eq_false_iff_ne.mpr (fun hh => hkne hh.symm)
      cases h2 : pyGet m k2 <;> simp [hkk]

/-! ### `followermap` lemmas -/

theorem buildMapFrom_none :
    ∀ (rest : List Account) (m : List (Nat × Nat)) (i aid : Nat),
    pyGet (buildMapFrom m i rest) aid = none →
    pyGet m aid = none ∧ ∀ x ∈ rest, x.id ≠ aid := by
  intro rest
  induction rest with
  | nil => intro m i aid h; exact ⟨h, by simp⟩
  | cons x rest ih =>
    intro m i aid h
    obtain ⟨h1, h2⟩ := ih _ _ _ h
    rw [pyGet_pyInsert] at h1
    by_cases hx : (aid == x.id) = true
    · rw [if_pos hx] at h1; cases h1
    · rw [if_neg hx] at h1
      refine ⟨h1, ?_⟩
      intro y hy
      rcases List.mem_cons.mp hy with rfl | hy
      · intro hh
        rw [hh] at hx
        simp at hx
      · exact h2 y hy

theorem buildMapFrom_some :
    ∀ (rest : List Account) (m : List (Nat × Nat)) (i aid j : Nat),
    pyGet (buildMapFrom m i rest) aid = some j →
    (pyGet m aid = some j ∧ ∀ x ∈ rest, x.id ≠ aid) ∨
    (∃ t x, rest[t]? = some x ∧ x.id = aid ∧ j = i + t) := by
  intro rest
  induction rest with
  | nil => intro m i aid j h; exact Or.inl ⟨h, by simp⟩
  | cons x rest ih =>
    intro m i aid j h
    rcases ih _ _ _ _ h with ⟨h1, h2⟩ | ⟨t, y, ht, hid, hj⟩
    · rw [pyGet_pyInsert] at h1
      by_cases hx : (aid == x.id) = true
      · rw [if_pos hx] at h1
        have hij := Option.some.inj h1
        exact Or.inr ⟨0, x, by simp, (eq_of_beq hx).symm, by omega⟩
      · rw [if_neg hx] at h1
        refine Or.inl ⟨h1, ?_⟩
        intro y hy
        rcases List.mem_cons.mp hy with rfl | hy
        · intro hh
          rw [hh] at hx
          simp at hx
        · exact h2 y hy
    · exact Or.inr ⟨t + 1, y, by simpa using ht, hid, by omega⟩

theorem buildMap_some (followers : List Account) (aid j : Nat)
    (h : pyGet (buildMap followers) aid = some j) :
    ∃ x, followers[j]? = some x ∧ x.id = aid := by
  rcases buildMapFrom_some followers [] 0 aid j h with ⟨h1, _⟩ |
    ⟨t, x, ht, hid, hj⟩
  · simp [pyGet] at h1
  · exact ⟨x, by simpa [hj] using ht, hid⟩

theorem buildMap_none (followers : List Account) (aid : Nat)
    (h : pyGet (buildMap followers) aid = none) :
    ∀ x ∈ followers, x.id ≠ aid :=
  (buildMapFrom_none followers [] 0 aid h).2

/-! ### The membership join -/

theorem joinStep_map (followers : List Account)
    (hnd : (followers.map Account.id).Nodup)
    (g : Nat → List Nat) (aid lid : Nat) :
    joinStep (buildMap followers) (followers.map (fun x => g x.id)) aid lid =
      followers.map (fun x =>
        if x.id = aid then g x.id ++ [lid] else g x.id) := by
  unfold joinStep
  cases h : pyGet (buildMap followers) aid with
  | none =>
    have h2 := buildMap_none followers aid h
    exact (List.map_congr_left (fun x hx => by simp [h2 x hx])).symm
  | some j =>
    obtain ⟨x, hx, hid⟩ := buildMap_some followers aid j h
    have hjlen : j < followers.length := by
      rcases List.getElem?_eq_some_iff.mp hx with ⟨hl, _⟩
      exact hl
    have hmapj : (followers.map (fun x => g x.id))[j]? = some (g x.id) := by
      simp [hx]
    have hgetD : (followers.map (fun x => g x.id)).getD j [] = g x.id := by
      simp [List.getD, hmapj]
    dsimp only
    rw [hgetD]
    apply List.ext_getElem?
    intro n
    by_cases hn : n = j
    · subst hn
      have hlen2 : n < (followers.map (fun x => g x.id)).length := by
        simpa using hjlen
      have hset : ((followers.map (fun x => g x.id)).set n
          (g x.id ++ [lid]))[n]? = some (g x.id ++ [lid]) :=
        List.getElem?_set_eq_of_lt _ hlen2
      rw [hset]
      simp [hx, hid]
    · rw [List.getElem?_set_ne (fun hh => hn hh.symm)]
      cases hyn : followers[n]? with
      | none => simp [hyn]
      | some y =>
        have hy : ¬y.id = aid := by
          intro hcon
          have e1 : (followers.map Account.id)[n]? = some aid := by
            simp [hyn, hcon]
          have e2 : (followers.map Account.id)[j]? = some aid := by
            simp [hx, hid]
          have hlen : n < (followers.map Account.id).length := by
            rcases List.getElem?_eq_some_iff.mp e1 with ⟨hl, _⟩
            exact hl
          exact hn (List.getElem?_inj hlen hnd (e1.trans e2.symm))
        simp [hyn, hy]

theorem foldl_joinStep (followers : List Account)
    (hnd : (followers.map Account.id).Nodup) (lid : Nat) :
    ∀ (accts : List Account) (g : Nat → List Nat),
    accts.foldl (fun s acct => joinStep (buildMap followers) s acct.id lid)
        (followers.map (fun x => g x.id)) =
      followers.map (fun x =>
        g x.id ++ ((accts.map Account.id).filter (fun a => a == x.id)).map
          (fun _ => lid)) := by
  intro accts
  induction accts with
  | nil =>
    intro g
    simp
  | cons a accts ih =>
    intro g
    rw [List.foldl_cons, joinStep_map followers hnd g a.id lid,
      ih (fun fid => if fid = a.id then g fid ++ [lid] else g fid)]
    apply List.map_congr_left
    intro x _
    by_cases hax : (a.id == x.id) = true
    · have hax' : x.id = a.id := (eq_of_beq hax).symm
      simp [List.filter_cons, hax, hax']
    · have hax' : ¬x.id = a.id := by
        intro hh
        rw [hh] at hax
        simp at hax
      simp [List.filter_cons, hax, hax']

theorem listsLoop_ok (api : Api) (followers : List Account)
    (hnd : (followers.map Account.id).Nodup) (accs : Nat → List Account) :
    ∀ (lists : List MList) (g : Nat → List Nat),
    (∀ l ∈ lists, api.list_accounts l.id = Except.ok (accs l.id)) →
    listsLoop api (buildMap followers) lists
        (followers.map (fun x => g x.id)) =
      (Except.ok
        (followers.map (fun x => g x.id ++ listsFor accs lists x.id)),
       lists.map (fun l => Call.listAccounts l.id)) := by
  intro lists
  induction lists with
  | nil =>
    intro g _
    simp [listsLoop, listsFor]
  | cons l lists ih =>
    intro g hla
    have hl : api.list_accounts l.id = Except.ok (accs l.id) :=
      hla l (List.mem_cons_self l lists)
    simp only [listsLoop, hl]
    rw [foldl_joinStep followers hnd l.id (accs l.id) g,
      ih (fun fid =>
        g fid ++ (((accs l.id).map Account.id).filter
          (fun a => a == fid)).map (fun _ => l.id))
        (fun l2 hl2 => hla l2 (List.mem_cons_of_mem l hl2))]
    simp [listsFor, List.append_assoc]

theorem mem_listsFor (accs : Nat → List Account) :
    ∀ (lists : List MList) (fid lid : Nat),
    lid ∈ listsFor accs lists fid ↔
      ∃ l ∈ lists, l.id = lid ∧ fid ∈ (accs l.id).map Account.id := by
  intro lists
  induction lists with
  | nil => intro fid lid; simp [listsFor]
  | cons l ls ih =>
    intro fid lid
    simp only [listsFor, List.mem_append, ih, List.mem_cons]
    constructor
    · rintro (hmem | ⟨l2, hl2, hid, hfid⟩)
      · rcases List.mem_map.mp hmem with ⟨a, ha, hEq⟩
        rcases List.mem_filter.mp ha with ⟨hamem, habeq⟩
        have haf : a = fid := by simpa using habeq
        subst haf
        exact ⟨l, Or.inl rfl, hEq, hamem⟩
      · exact ⟨l2, Or.inr hl2, hid, hfid⟩
    · rintro ⟨l2, hl2 | hl2, hid, hfid⟩
      · subst hl2
        exact Or.inl (List.mem_map.mpr
          ⟨fid, List.mem_filter.mpr ⟨hfid, by simp⟩, hid⟩)
      · exact Or.inr ⟨l2, hl2, hid, hfid⟩

theorem zip_reduce (l : List Account) (f : Account → List Nat) :
    (l.zip (l.map f)).map (fun p =>
      OutPerson.mk (toString p.1.id) p.2 p.1.display_name p.1.username
        p.1.acct p.1.note p.1.avatar) =
      l.map (fun x => reducePerson x (f x)) := by
  induction l with
  | nil => rfl
  | cons x xs ih => simpa [reducePerson] using ih

/-- The success path of `info`: with valid session and every remote call
succeeding, `info` emits the lists unmodified, the reduced followers with
their joined list memberships, and the `me` summary, after the recorded
trace of store reads and remote calls. -/
theorem info_success (store : Store) (api : Api) (event : Event)
    (cdict : List (String × String)) (cookie : String) (me : Account)
    (followers : List Account) (lists : List MList)
    (accs : Nat → List Account)
    (hp : parse_cookies (event.cookies.getD []) = Except.ok cdict)
    (hk : pyGet cdict "list-manager-cookie" = some cookie)
    (hme : api.me = Except.ok me)
    (hfo : api.account_following me.id = Except.ok followers)
    (hli : api.lists = Except.ok lists)
    (hla : ∀ l ∈ lists, api.list_accounts l.id = Except.ok (accs l.id))
    (hnd : (followers.map Account.id).Nodup) :
    info store api event =
      (Except.ok (Ret.str (Body.jsonInfo
        ⟨lists,
         followers.map (fun x => reducePerson x (listsFor accs lists x.id)),
         ⟨me.username, me.acct ++ "@" ++ domainOf store cookie,
          me.display_name⟩⟩)),
       [Call.dbGet cookie, Call.meCall, Call.accountFollowing me.id,
        Call.listsCall] ++ lists.map (fun l => Call.listAccounts l.id) ++
        [Call.dbGet cookie]) := by
  have hloop := listsLoop_ok api followers hnd accs lists (fun _ => []) hla
  simp only [info, hp, hk, hme, hfo, hli]
  rw [hloop]
  simp only [List.nil_append]
  rw [zip_reduce followers (fun x => listsFor accs lists x.id)]
  simp [domainOf]

/-! ### Concrete worlds used by counterexamples and witnesses -/

/-- An empty session store. -/
def store0 : Store := []

/-- A session store holding one entry for cookie `"abc"`. -/
def store1 : Store := [("abc", ⟨"tok-abc", "d.example"⟩)]

/-- A remote API on which every call succeeds. -/
def apiOkAll : Api where
  me := Except.ok ⟨7, "dn-me", "me", "act-me", "note", "av", 100⟩
  account_following := fun _ => Except.ok []
  lists := Except.ok []
  list_accounts := fun _ => Except.ok []
  list_create := fun _ => none
  list_delete := fun _ => none
  list_accounts_add := fun _ _ => none
  list_accounts_delete := fun _ _ => none
  auth_request_url := fun r => "url-for-" ++ r
  log_in := fun _ _ => Except.ok "fresh-token"

/-- A remote API that rejects every call as unauthorized. -/
def apiUnauthAll : Api where
  me := Except.error PyExc.mastodonUnauthorized
  account_following := fun _ => Except.error PyExc.mastodonUnauthorized
  lists := Except.error PyExc.mastodonUnauthorized
  list_accounts := fun _ => Except.error PyExc.mastodonUnauthorized
  list_create := fun _ => some PyExc.mastodonUnauthorized
  list_delete := fun _ => some PyExc.mastodonUnauthorized
  list_accounts_add := fun _ _ => some PyExc.mastodonUnauthorized
  list_accounts_delete := fun _ _ => some PyExc.mastodonUnauthorized
  auth_request_url := fun r => "url-for-" ++ r
  log_in := fun _ _ => Except.ok "fresh-token"

/-- Extract the `me` summary from a successful `info` return. -/
def retMe : Ret → Option MeInfo
  | Ret.str (Body.jsonInfo o) => some o.me
  | _ => none

/-- Followed account A (id 1) of the membership-join example. -/
def accA : Account := ⟨1, "dn-A", "A", "acct-A", "nA", "avA", 0⟩

/-- Followed account B (id 2) of the membership-join example. -/
def accB : Account := ⟨2, "dn-B", "B", "acct-B", "nB", "avB", 0⟩

/-- Account C (id 3), a list member the caller does not follow. -/
def accC : Account := ⟨3, "dn-C", "C", "acct-C", "nC", "avC", 0⟩

/-- List L1 (id 10) with members `{A, C}`. -/
def listL1 : MList := ⟨10, "L1"⟩

/-- List L2 (id 20) with member `{B}`. -/
def listL2 : MList := ⟨20, "L2"⟩

/-- Drained memberships of the example lists. -/
def accs4 : Nat → List Account := fun lid =>
  if lid = 10 then [accA, accC] else if lid = 20 then [accB] else []

/-- The remote API of the membership-join example: follows `{A, B}`,
lists `{L1, L2}` with the memberships of `accs4`. -/
def api4 : Api where
  me := Except.ok ⟨7, "dn-me", "me", "act-me", "note", "av", 100⟩
  account_following := fun _ => Except.ok [accA, accB]
  lists := Except.ok [listL1, listL2]
  list_accounts := fun lid => Except.ok (accs4 lid)
  list_create := fun _ => none
  list_delete := fun _ => none
  list_accounts_add := fun _ _ => none
  list_accounts_delete := fun _ _ => none
  auth_request_url := fun r => "url-for-" ++ r
  log_in := fun _ _ => Except.ok "fresh-token"

/-- A followed account whose id needs more precision than a JS number. -/
def accBig : Account :=
  ⟨123456789012345, "dn-big", "big", "acct-big", "nb", "avb", 0⟩

/-- A remote API following only `accBig`, with no lists. -/
def api7 : Api where
  me := Except.ok ⟨7, "dn-me", "me", "act-me", "note", "av", 100⟩
  account_following := fun _ => Except.ok [accBig]
  lists := Except.ok []
  list_accounts := fun _ => Except.ok []
  list_create := fun _ => none
  list_delete := fun _ => none
  list_accounts_add := fun _ _ => none
  list_accounts_delete := fun _ _ => none
  auth_request_url := fun r => "url-for-" ++ r
  log_in := fun _ _ => Except.ok "fresh-token"

/-- An event with the session cookie and all CRUD query parameters. -/
def evSession : Event :=
  ⟨some ["list-manager-cookie=abc"], some [("origin", "none")],
   some [("list_id", "5"), ("account_id", "7"), ("list_name", "nm")]⟩

/-- An event with no `cookies` key at all. -/
def evNoCookiesKey : Event := ⟨none, some [("origin", "none")], none⟩

/-- An event whose cookie list lacks `list-manager-cookie`. -/
def evOtherCookie : Event :=
  ⟨some ["foo=bar"], some [("origin", "none")], none⟩

/-! ### C8: cookie parsing -/

/-- `parse_cookies` succeeds on a cookie list when each cookie's first
`;`-segment splits on `=` into exactly two pieces, and then folds the
name/value pairs into a dict. -/
theorem parse_cookies_foldlM (cookies : List String) :
    ∀ acc : List (String × String),
    (∀ c ∈ cookies,
      ∃ name val, pySplit '=' ((pySplit ';' c).headD "") = [name, val]) →
    cookies.foldlM
      (fun res cookie =>
        let arr := pySplit ';' cookie
        match pySplit '=' (arr.headD "") with
        | [name, val] => Except.ok (pyInsert res name val)
        | _ => Except.error PyExc.valueError)
      acc =
    Except.ok (cookies.foldl (fun m c =>
      let arr := pySplit '=' ((pySplit ';' c).headD "")
      pyInsert m (arr.headD "") (arr.getD 1 "")) acc) := by
  induction cookies with
  | nil => intro acc _; rfl
  | cons c cs ih =>
    intro acc h
    obtain ⟨name, val, hc⟩ := h c (List.mem_cons_self c cs)
    simp only [List.foldlM_cons, hc, List.foldl_cons]
    simpa using ih (pyInsert acc name val)
      (fun d hd => h d (List.mem_cons_of_mem c hd))

/-- Claim C8 (corrected): the code does not split on the *first* `=` only;
`arr[0].split("=")` splits on every `=` and the 2-tuple unpacking raises
`ValueError` when the value contains an `=`.  A cookie string of the form
`"a=b=c"` therefore raises instead of yielding `{"a": "b=c"}`. -/
theorem C8_counterexample :
    parse_cookies ["a=b=c"] = Except.error PyExc.valueError ∧
    parse_cookies ["a=b=c"] ≠ Except.ok [("a", "b=c")] := by
  constructor
  · decide
  · decide

/-- Claim C8 (amended): `parse_cookies` splits each cookie on `;`, keeps
the first segment, and requires that segment to contain exactly one `=`;
it then returns the name-to-value dict built by insertion in order.  (A
first segment with zero or more than one `=` raises `ValueError`.) -/
theorem C8_parse_cookies_amended (cookies : List String)
    (h : ∀ c ∈ cookies,
      ∃ name val, pySplit '=' ((pySplit ';' c).headD "") = [name, val]) :
    parse_cookies cookies = Except.ok (cookies.foldl (fun m c =>
      let arr := pySplit '=' ((pySplit ';' c).headD "")
      pyInsert m (arr.headD "") (arr.getD 1 "")) []) :=
  parse_cookies_foldlM cookies [] h

/-- Witness for C8: a session cookie with attributes and a second cookie
parse to the expected dict. -/
theorem C8_parse_cookies_amended_witness :
    parse_cookies ["list-manager-cookie=abc; Path=x", "n=v"] =
      Except.ok [("list-manager-cookie", "abc"), ("n", "v")] := by
  have h := C8_parse_cookies_amended ["list-manager-cookie=abc; Path=x", "n=v"]
    (by
      intro c hc
      simp only [List.mem_cons, List.not_mem_nil, or_false] at hc
      rcases hc with rfl | rfl
      · exact ⟨"list-manager-cookie", "abc", by decide⟩
      · exact ⟨"n", "v", by decide⟩)
  rw [h]
  decide

/-! ### C3: pagination draining -/

/-- Loop invariant for `get_all`: starting from a page that heads a
well-formed chain, the loop appends every page's items and records one
cursor argument per page transition. -/
theorem get_all_go_spec {α : Type} (func : Option Nat → Page α) :
    ∀ (rest : List (Page α)) (p : Page α) (res : List α)
      (calls : List (Option Nat)) (fuel : Nat),
    chainOk func (p :: rest) → rest.length < fuel →
    get_all_go func fuel p res calls =
      some (res ++ ((p :: rest).map Page.items).flatten,
            calls ++ ((p :: rest).dropLast.map Page.pagination_next)) := by
  intro rest
  induction rest with
  | nil =>
    intro p res calls fuel hchain hfuel
    match fuel, hfuel with
    | fuel + 1, _ =>
      simp only [chainOk] at hchain
      simp [get_all_go, hchain]
  | cons q rest ih =>
    intro p res calls fuel hchain hfuel
    simp only [chainOk] at hchain
    obtain ⟨hs, hf, hrest⟩ := hchain
    obtain ⟨c, hc⟩ := Option.isSome_iff_exists.mp hs
    match fuel, hfuel with
    | fuel + 1, hfuel =>
      have hfuel' : rest.length < fuel := by
        simpa using Nat.lt_of_succ_lt_succ hfuel
      have hq : func (some c) = q := by rw [← hc]; exact hf
      simp only [get_all_go, hc, hq]
      rw [ih q (res ++ p.items) (calls ++ [some c]) fuel hrest hfuel']
      simp [hc]

/-- Claim C3 (confirmed): if the fetch yields pages `p :: rest` where
exactly the last page lacks the pagination cursor, `get_all` returns the
concatenation of all pages' items in order and invokes the fetch exactly
`(p :: rest).length` times — the initial call with no `max_id`, then one
call per page passing the cursor embedded in the immediately preceding
page. -/
theorem C3_get_all_drains {α : Type} (func : Option Nat → Page α)
    (p : Page α) (rest : List (Page α)) (fuel : Nat)
    (hfirst : func none = p) (hchain : chainOk func (p :: rest))
    (hfuel : rest.length < fuel) :
    get_all func fuel =
      some (((p :: rest).map Page.items).flatten,
            none :: ((p :: rest).dropLast.map Page.pagination_next)) ∧
    (none :: ((p :: rest).dropLast.map Page.pagination_next)).length =
      (p :: rest).length := by
  constructor
  · unfold get_all
    rw [hfirst, get_all_go_spec func rest p [] [none] fuel hchain hfuel]
    simp
  · simp [List.length_dropLast]

/-- A three-page fetch stub: pages `[1,2]`, `[3]`, `[4,5]` with cursors
`101`, `102`, and no cursor on the final page. -/
def fetch3 : Option Nat → Page Nat
  | none => ⟨[1, 2], some 101⟩
  | some 101 => ⟨[3], some 102⟩
  | some 102 => ⟨[4, 5], none⟩
  | some _ => ⟨[], none⟩

/-- Witness for C3: draining the three-page stub yields the concatenation
of the three pages and a three-call trace with the right cursors. -/
theorem C3_get_all_drains_witness :
    get_all fetch3 3 = some ([1, 2, 3, 4, 5], [none, some 101, some 102]) := by
  have h := C3_get_all_drains fetch3 ⟨[1, 2], some 101⟩
    [⟨[3], some 102⟩, ⟨[4, 5], none⟩] 3 rfl ⟨rfl, rfl, rfl, rfl, rfl⟩
    (by decide)
  rw [h.1]
  decide

/-! ### C5: CRUD mutations -/

/-- Claim C5 (confirmed): with the session cookie present and the
identifiers available in the query parameters, each CRUD handler performs
exactly one store read followed by exactly its one remote mutation with
the caller-supplied identifiers, returning 200 `"OK"` on success and 500
`"ERROR"` when the mutation raises a `MastodonAPIError`. -/
theorem C5_crud_mutations (store : Store) (api : Api) (event : Event)
    (cs : List String) (cdict : List (String × String)) (cookie : String)
    (hc : event.cookies = some cs)
    (hp : parse_cookies cs = Except.ok cdict)
    (hk : pyGet cdict "list-manager-cookie" = some cookie) :
    (∀ lid aid, qspGet event "list_id" = Except.ok lid →
      qspGet event "account_id" = Except.ok aid →
      (api.list_accounts_add lid [aid] = none →
        add_to_list store api event =
          (Except.ok (response (Body.text "OK") 200),
           [Call.dbGet cookie, Call.listAccountsAdd lid [aid]])) ∧
      (∀ e, api.list_accounts_add lid [aid] = some e →
        isMastodonAPIError e = true →
        add_to_list store api event =
          (Except.ok (response (Body.text "ERROR") 500),
           [Call.dbGet cookie, Call.listAccountsAdd lid [aid]]))) ∧
    (∀ lid aid, qspGet event "list_id" = Except.ok lid →
      qspGet event "account_id" = Except.ok aid →
      (api.list_accounts_delete lid [aid] = none →
        remove_from_list store api event =
          (Except.ok (response (Body.text "OK") 200),
           [Call.dbGet cookie, Call.listAccountsDelete lid [aid]])) ∧
      (∀ e, api.list_accounts_delete lid [aid] = some e →
        isMastodonAPIError e = true →
        remove_from_list store api event =
          (Except.ok (response (Body.text "ERROR") 500),
           [Call.dbGet cookie, Call.listAccountsDelete lid [aid]]))) ∧
    (∀ lname, qspGet event "list_name" = Except.ok lname →
      (api.list_create lname = none →
        create_list store api event =
          (Except.ok (response (Body.text "OK") 200),
           [Call.dbGet cookie, Call.listCreate lname])) ∧
      (∀ e, api.list_create lname = some e → isMastodonAPIError e = true →
        create_list store api event =
          (Except.ok (response (Body.text "ERROR") 500),
           [Call.dbGet cookie, Call.listCreate lname]))) ∧
    (∀ lid, qspGet event "list_id" = Except.ok lid →
      (api.list_delete lid = none →
        delete_list store api event =
          (Except.ok (response (Body.text "OK") 200),
           [Call.dbGet cookie, Call.listDelete lid])) ∧
      (∀ e, api.list_delete lid = some e → isMastodonAPIError e = true →
        delete_list store api event =
          (Except.ok (response (Body.text "ERROR") 500),
           [Call.dbGet cookie, Call.listDelete lid]))) := by
  refine ⟨?_, ?_, ?_, ?_⟩
  · intro lid aid hql hqa
    exact ⟨fun hmut => by simp [add_to_list, hc, hp, hk, hql, hqa, hmut],
      fun e hmut he => by simp [add_to_list, hc, hp, hk, hql, hqa, hmut, he]⟩
  · intro lid aid hql hqa
    exact ⟨fun hmut => by
        simp [remove_from_list, hc, hp, hk, hql, hqa, hmut],
      fun e hmut he => by
        simp [remove_from_list, hc, hp, hk, hql, hqa, hmut, he]⟩
  · intro lname hql
    exact ⟨fun hmut => by simp [create_list, hc, hp, hk, hql, hmut],
      fun e hmut he => by simp [create_list, hc, hp, hk, hql, hmut, he]⟩
  · intro lid hql
    exact ⟨fun hmut => by simp [delete_list, hc, hp, hk, hql, hmut],
      fun e hmut he => by simp [delete_list, hc, hp, hk, hql, hmut, he]⟩

/-- Witness for C5: on the concrete session event, all four CRUD handlers
succeed against the all-success API and fail with 500 against the
all-unauthorized API. -/
theorem C5_crud_mutations_witness :
    add_to_list store0 apiOkAll evSession =
      (Except.ok (response (Body.text "OK") 200),
       [Call.dbGet "abc", Call.listAccountsAdd "5" ["7"]]) ∧
    remove_from_list store0 apiOkAll evSession =
      (Except.ok (response (Body.text "OK") 200),
       [Call.dbGet "abc", Call.listAccountsDelete "5" ["7"]]) ∧
    create_list store0 apiOkAll evSession =
      (Except.ok (response (Body.text "OK") 200),
       [Call.dbGet "abc", Call.listCreate "nm"]) ∧
    delete_list store0 apiOkAll evSession =
      (Except.ok (response (Body.text "OK") 200),
       [Call.dbGet "abc", Call.listDelete "5"]) ∧
    add_to_list store0 apiUnauthAll evSession =
      (Except.ok (response (Body.text "ERROR") 500),
       [Call.dbGet "abc", Call.listAccountsAdd "5" ["7"]]) := by
  have h1 := C5_crud_mutations store0 apiOkAll evSession
    ["list-manager-cookie=abc"] [("list-manager-cookie", "abc")] "abc"
    rfl (by decide) (by decide)
  have h2 := C5_crud_mutations store0 apiUnauthAll evSession
    ["list-manager-cookie=abc"] [("list-manager-cookie", "abc")] "abc"
    rfl (by decide) (by decide)
  refine ⟨(h1.1 "5" "7" (by decide) (by decide)).1 rfl,
    (h1.2.1 "5" "7" (by decide) (by decide)).1 rfl,
    (h1.2.2.1 "nm" (by decide)).1 rfl,
    (h1.2.2.2 "5" (by decide)).1 rfl,
    (h2.1 "5" "7" (by decide) (by decide)).2 PyExc.mastodonUnauthorized
      rfl rfl⟩

/-! ### C9: auth with a valid session -/

/-- Claim C9 (confirmed): with a session cookie that resolves to a valid
remote session (`me()` succeeds), `auth` returns 200 `{"status": "OK"}`
after one store read and one `me()` call, and never requests an
authorization URL. -/
theorem C9_auth_valid_session (store : Store) (api : Api) (event : Event)
    (cdict : List (String × String)) (cookie : String) (acc : Account)
    (hp : parse_cookies (event.cookies.getD []) = Except.ok cdict)
    (hk : pyGet cdict "list-manager-cookie" = some cookie)
    (hme : api.me = Except.ok acc) :
    auth store api event =
      (Except.ok (Ret.resp ⟨200, Body.jsonStatus "OK"⟩),
       [Call.dbGet cookie, Call.meCall]) ∧
    ∀ r, Call.authRequestUrl r ∉ (auth store api event).2 := by
  have h : auth store api event =
      (Except.ok (Ret.resp ⟨200, Body.jsonStatus "OK"⟩),
       [Call.dbGet cookie, Call.meCall]) := by
    simp [auth, hp, hk, hme]
  exact ⟨h, fun r => by rw [h]; simp⟩

/-- Witness for C9: the concrete session event against the all-success
API. -/
theorem C9_auth_valid_session_witness :
    auth store0 apiOkAll evSession =
      (Except.ok (Ret.resp ⟨200, Body.jsonStatus "OK"⟩),
       [Call.dbGet "abc", Call.meCall]) :=
  (C9_auth_valid_session store0 apiOkAll evSession
    [("list-manager-cookie", "abc")] "abc"
    ⟨7, "dn-me", "me", "act-me", "note", "av", 100⟩
    (by decide) (by decide) rfl).1

/-! ### C1: mapping of remote unauthorized errors -/

/-- Claim C1 (corrected) — counterexample: with the session cookie present
and the remote mutation rejecting the credentials as unauthorized,
`add_to_list` returns 500 `"ERROR"` (the `MastodonAPIError` catch-all at
handler.py:291-292), not 403 `no_cookie` as the claim states uniformly. -/
theorem C1_counterexample :
    (add_to_list store0 apiUnauthAll evSession).1 =
      Except.ok (response (Body.text "ERROR") 500) ∧
    (add_to_list store0 apiUnauthAll evSession).1 ≠
      Except.ok (response (Body.jsonStatus "no_cookie") 403) := by
  constructor
  · decide
  · decide

/-- Claim C1 (amended): only `info` maps a remote unauthorized error to
403 `no_cookie` (its `me()` probe, handler.py:119-121).  `auth` treats it
as not-logged-in and proceeds to the OAuth flow, returning 200 with an
authorization URL; the four CRUD handlers catch it as a generic
`MastodonAPIError` from their mutation and return 500 `"ERROR"`. -/
theorem C1_unauthorized_mapping (store : Store) (api : Api) (event : Event)
    (cs : List String) (cdict : List (String × String)) (cookie : String)
    (hc : event.cookies = some cs)
    (hp : parse_cookies cs = Except.ok cdict)
    (hk : pyGet cdict "list-manager-cookie" = some cookie) :
    (api.me = Except.error PyExc.mastodonUnauthorized →
      info store api event =
        (Except.ok (response (Body.jsonStatus "no_cookie") 403),
         [Call.dbGet cookie, Call.meCall])) ∧
    (api.me = Except.error PyExc.mastodonUnauthorized →
      ∀ r, make_redirect_url event = Except.ok r →
      auth store api event =
        (Except.ok (response (Body.jsonUrl (api.auth_request_url r)) 200),
         [Call.dbGet cookie, Call.meCall, Call.authRequestUrl r])) ∧
    (∀ lid aid, qspGet event "list_id" = Except.ok lid →
      qspGet event "account_id" = Except.ok aid →
      (api.list_accounts_add lid [aid] =
          some PyExc.mastodonUnauthorized →
        add_to_list store api event =
          (Except.ok (response (Body.text "ERROR") 500),
           [Call.dbGet cookie, Call.listAccountsAdd lid [aid]])) ∧
      (api.list_accounts_delete lid [aid] =
          some PyExc.mastodonUnauthorized →
        remove_from_list store api event =
          (Except.ok (response (Body.text "ERROR") 500),
           [Call.dbGet cookie, Call.listAccountsDelete lid [aid]]))) ∧
    (∀ lname, qspGet event "list_name" = Except.ok lname →
      api.list_create lname = some PyExc.mastodonUnauthorized →
      create_list store api event =
        (Except.ok (response (Body.text "ERROR") 500),
         [Call.dbGet cookie, Call.listCreate lname])) ∧
    (∀ lid, qspGet event "list_id" = Except.ok lid →
      api.list_delete lid = some PyExc.mastodonUnauthorized →
      delete_list store api event =
        (Except.ok (response (Body.text "ERROR") 500),
         [Call.dbGet cookie, Call.listDelete lid])) := by
  refine ⟨?_, ?_, ?_, ?_, ?_⟩
  · intro hme
    simp [info, hc, hp, hk, hme]
  · intro hme r hr
    simp [auth, authFallthrough, hc, hp, hk, hme, hr, isMastodonAPIError]
  · intro lid aid hql hqa
    exact ⟨fun hmut => by
        simp [add_to_list, hc, hp, hk, hql, hqa, hmut, isMastodonAPIError],
      fun hmut => by
        simp [remove_from_list, hc, hp, hk, hql, hqa, hmut,
          isMastodonAPIError]⟩
  · intro lname hql hmut
    simp [create_list, hc, hp, hk, hql, hmut, isMastodonAPIError]
  · intro lid hql hmut
    simp [delete_list, hc, hp, hk, hql, hmut, isMastodonAPIError]

/-- Witness for C1 (amended): against the all-unauthorized API, `info`
returns 403 `no_cookie`, `auth` returns 200 with the authorization URL,
and `add_to_list` returns 500. -/
theorem C1_unauthorized_mapping_witness :
    info store0 apiUnauthAll evSession =
      (Except.ok (response (Body.jsonStatus "no_cookie") 403),
       [Call.dbGet "abc", Call.meCall]) ∧
    auth store0 apiUnauthAll evSession =
      (Except.ok (response
         (Body.jsonUrl "url-for-https://acbeers.github.io/mastodonlm/callback")
         200),
       [Call.dbGet "abc", Call.meCall,
        Call.authRequestUrl "https://acbeers.github.io/mastodonlm/callback"]) ∧
    add_to_list store0 apiUnauthAll evSession =
      (Except.ok (response (Body.text "ERROR") 500),
       [Call.dbGet "abc", Call.listAccountsAdd "5" ["7"]]) := by
  have h := C1_unauthorized_mapping store0 apiUnauthAll evSession
    ["list-manager-cookie=abc"] [("list-manager-cookie", "abc")] "abc"
    rfl (by decide) (by decide)
  refine ⟨h.1 rfl, ?_, (h.2.2.1 "5" "7" (by decide) (by decide)).1 rfl⟩
  have h2 := h.2.1 rfl "https://acbeers.github.io/mastodonlm/callback"
    (by decide)
  exact h2

/-! ### C2: missing cookie behaviour -/

/-- Claim C2 (code bug): with a cookie list present but no
`list-manager-cookie`, every authenticated handler returns 403
`no_cookie` without touching the store or the remote API — but on an
event with *no `cookies` key at all* the four CRUD handlers evaluate
`event["cookies"]` and raise `KeyError` instead of returning the 403 the
claim (and the repository's own no-cookie tests) require; only `info`
uses `event.get("cookies", [])` and still returns 403. -/
theorem C2_no_cookie_behavior :
    (add_to_list store0 apiOkAll evNoCookiesKey =
       (Except.error (PyExc.keyError "cookies"), []) ∧
     remove_from_list store0 apiOkAll evNoCookiesKey =
       (Except.error (PyExc.keyError "cookies"), []) ∧
     create_list store0 apiOkAll evNoCookiesKey =
       (Except.error (PyExc.keyError "cookies"), []) ∧
     delete_list store0 apiOkAll evNoCookiesKey =
       (Except.error (PyExc.keyError "cookies"), [])) ∧
    info store0 apiOkAll evNoCookiesKey =
      (Except.ok (response (Body.jsonStatus "no_cookie") 403), []) ∧
    (info store0 apiOkAll evOtherCookie =
       (Except.ok (response (Body.jsonStatus "no_cookie") 403), []) ∧
     add_to_list store0 apiOkAll evOtherCookie =
       (Except.ok (response (Body.jsonStatus "no_cookie") 403), []) ∧
     remove_from_list store0 apiOkAll evOtherCookie =
       (Except.ok (response (Body.jsonStatus "no_cookie") 403), []) ∧
     create_list store0 apiOkAll evOtherCookie =
       (Except.ok (response (Body.jsonStatus "no_cookie") 403), []) ∧
     delete_list store0 apiOkAll evOtherCookie =
       (Except.ok (response (Body.jsonStatus "no_cookie") 403), [])) := by
  decide

/-! ### Store-frame helper lemmas -/

/-- Whether a Python `Except` value is a normal return. -/
def exceptIsOk {ε α : Type} : Except ε α → Bool
  | Except.ok _ => true
  | Except.error _ => false

theorem listsLoop_no_dbSet (api : Api) (fmap : List (Nat × Nat)) :
    ∀ (lists : List MList) (st : List (List Nat)),
    ((listsLoop api fmap lists st).2.filter isDbSet) = [] := by
  intro lists
  induction lists with
  | nil => intro st; rfl
  | cons l lists ih =>
    intro st
    simp only [listsLoop]
    cases h : api.list_accounts l.id with
    | error e => simp [isDbSet]
    | ok accts => simp [isDbSet, ih]

theorem info_no_dbSet (store : Store) (api : Api) (event : Event) :
    ((info store api event).2.filter isDbSet) = [] := by
  unfold info
  cases hpc : parse_cookies (event.cookies.getD []) with
  | error e => rfl
  | ok cdict =>
  dsimp only
  cases hk : pyGet cdict "list-manager-cookie" with
  | none => rfl
  | some cookie =>
  dsimp only
  cases hme : api.me with
  | error e => cases e <;> rfl
  | ok me =>
  dsimp only
  cases hfo : api.account_following me.id with
  | error e => rfl
  | ok followers =>
  dsimp only
  cases hli : api.lists with
  | error e => rfl
  | ok lists =>
  dsimp only
  have hc := listsLoop_no_dbSet api (buildMap followers) lists
    (followers.map (fun _ => []))
  cases hll : listsLoop api (buildMap followers) lists
      (followers.map (fun _ => [])) with
  | mk r calls =>
  rw [hll] at hc
  cases r with
  | error e => simpa [isDbSet, List.filter_append] using hc
  | ok st => simpa [isDbSet, List.filter_append] using hc

theorem auth_no_dbSet (store : Store) (api : Api) (event : Event) :
    ((auth store api event).2.filter isDbSet) = [] := by
  unfold auth authFallthrough
  cases hpc : parse_cookies (event.cookies.getD []) with
  | error e => rfl
  | ok cdict =>
  dsimp only
  cases hk : pyGet cdict "list-manager-cookie" with
  | none => cases hmr : make_redirect_url event <;> simp [isDbSet]
  | some cookie =>
  dsimp only
  cases hme : api.me with
  | ok acc => rfl
  | error e =>
    cases hb : isMastodonAPIError e with
    | false => simp [hb, isDbSet]
    | true =>
      cases hmr : make_redirect_url event <;> simp [hb, isDbSet]

theorem add_to_list_no_dbSet (store : Store) (api : Api) (event : Event) :
    ((add_to_list store api event).2.filter isDbSet) = [] := by
  unfold add_to_list
  cases hev : event.cookies with
  | none => rfl
  | some cookieList =>
  dsimp only
  cases hpc : parse_cookies cookieList with
  | error e => rfl
  | ok cdict =>
  dsimp only
  cases hk : pyGet cdict "list-manager-cookie" with
  | none => rfl
  | some cookie =>
  dsimp only
  cases hq1 : qspGet event "list_id" with
  | error e => rfl
  | ok lid =>
  dsimp only
  cases hq2 : qspGet event "account_id" with
  | error e => rfl
  | ok accountid =>
  dsimp only
  cases hmut : api.list_accounts_add lid [accountid] with
  | none => rfl
  | some e => cases hb : isMastodonAPIError e <;> simp [hb, isDbSet]

theorem remove_from_list_no_dbSet (store : Store) (api : Api)
    (event : Event) :
    ((remove_from_list store api event).2.filter isDbSet) = [] := by
  unfold remove_from_list
  cases hev : event.cookies with
  | none => rfl
  | some cookieList =>
  dsimp only
  cases hpc : parse_cookies cookieList with
  | error e => rfl
  | ok cdict =>
  dsimp only
  cases hk : pyGet cdict "list-manager-cookie" with
  | none => rfl
  | some cookie =>
  dsimp only
  cases hq1 : qspGet event "list_id" with
  | error e => rfl
  | ok lid =>
  dsimp only
  cases hq2 : qspGet event "account_id" with
  | error e => rfl
  | ok accountid =>
  dsimp only
  cases hmut : api.list_accounts_delete lid [accountid] with
  | none => rfl
  | some e => cases hb : isMastodonAPIError e <;> simp [hb, isDbSet]

theorem create_list_no_dbSet (store : Store) (api : Api) (event : Event) :
    ((create_list store api event).2.filter isDbSet) = [] := by
  unfold create_list
  cases hev : event.cookies with
  | none => rfl
  | some cookieList =>
  dsimp only
  cases hpc : parse_cookies cookieList with
  | error e => rfl
  | ok cdict =>
  dsimp only
  cases hk : pyGet cdict "list-manager-cookie" with
  | none => rfl
  | some cookie =>
  dsimp only
  cases hq1 : qspGet event "list_name" with
  | error e => rfl
  | ok lname =>
  dsimp only
  cases hmut : api.list_create lname with
  | none => rfl
  | some e => cases hb : isMastodonAPIError e <;> simp [hb, isDbSet]

theorem delete_list_no_dbSet (store : Store) (api : Api) (event : Event) :
    ((delete_list store api event).2.filter isDbSet) = [] := by
  unfold delete_list
  cases hev : event.cookies with
  | none => rfl
  | some cookieList =>
  dsimp only
  cases hpc : parse_cookies cookieList with
  | error e => rfl
  | ok cdict =>
  dsimp only
  cases hk : pyGet cdict "list-manager-cookie" with
  | none => rfl
  | some cookie =>
  dsimp only
  cases hq1 : qspGet event "list_id" with
  | error e => rfl
  | ok lid =>
  dsimp only
  cases hmut : api.list_delete lid with
  | none => rfl
  | some e => cases hb : isMastodonAPIError e <;> simp [hb, isDbSet]

theorem applyCalls_of_no_dbSet :
    ∀ (cs : List Call) (store : Store), cs.filter isDbSet = [] →
    applyCalls store cs = store := by
  intro cs
  induction cs with
  | nil => intro store _; rfl
  | cons c cs ih =>
    intro store h
    rw [List.filter_cons] at h
    by_cases hc : isDbSet c = true
    · rw [if_pos hc] at h
      cases h
    · rw [if_neg hc] at h
      have hcc : applyCall store c = store := by
        cases c <;> simp_all [applyCall, isDbSet]
      calc applyCalls store (c :: cs) = applyCalls (applyCall store c) cs :=
            rfl
        _ = applyCall store c := ih _ h
        _ = store := hcc

theorem callback_writes (store : Store) (api : Api) (event : Event)
    (fc : String) :
    ((callback store api event fc).2.filter isDbSet).length ≤ 1 ∧
    ∀ r, (callback store api event fc).1 = Except.ok r →
      ∃ token, (callback store api event fc).2.filter isDbSet =
        [Call.dbSet fc token "hachyderm.io"] := by
  unfold callback
  cases hq : qspGet event "code" with
  | error e => exact ⟨by simp, fun r hr => by cases hr⟩
  | ok code =>
  dsimp only
  cases hmr : make_redirect_url event with
  | error e => exact ⟨by simp, fun r hr => by cases hr⟩
  | ok redirect_url =>
  dsimp only
  cases hmc : make_cookie_options event with
  | error e => exact ⟨by simp, fun r hr => by cases hr⟩
  | ok cookie_options =>
  dsimp only
  cases hli : api.log_in code redirect_url with
  | error e => exact ⟨by simp [isDbSet], fun r hr => by cases hr⟩
  | ok token => exact ⟨by simp [isDbSet], fun r _ => ⟨token, by
      simp [isDbSet]⟩⟩

/-! ### C10: only `callback` writes the session store -/

/-- Claim C10 (confirmed): `info`, `auth`, and the four CRUD handlers
perform no session-store write — replaying their call trace leaves every
stored entry unchanged — while `callback` performs at most one write, and
on a successful return exactly one: the freshly minted cookie mapped to
the exchanged token (with the default domain `hachyderm.io`). -/
theorem C10_store_frame :
    (∀ (store : Store) (api : Api) (event : Event),
      ((info store api event).2.filter isDbSet) = [] ∧
      applyCalls store (info store api event).2 = store) ∧
    (∀ (store : Store) (api : Api) (event : Event),
      ((auth store api event).2.filter isDbSet) = [] ∧
      applyCalls store (auth store api event).2 = store) ∧
    (∀ (store : Store) (api : Api) (event : Event),
      ((add_to_list store api event).2.filter isDbSet) = [] ∧
      applyCalls store (add_to_list store api event).2 = store) ∧
    (∀ (store : Store) (api : Api) (event : Event),
      ((remove_from_list store api event).2.filter isDbSet) = [] ∧
      applyCalls store (remove_from_list store api event).2 = store) ∧
    (∀ (store : Store) (api : Api) (event : Event),
      ((create_list store api event).2.filter isDbSet) = [] ∧
      applyCalls store (create_list store api event).2 = store) ∧
    (∀ (store : Store) (api : Api) (event : Event),
      ((delete_list store api event).2.filter isDbSet) = [] ∧
      applyCalls store (delete_list store api event).2 = store) ∧
    (∀ (store : Store) (api : Api) (event : Event) (fc : String),
      ((callback store api event fc).2.filter isDbSet).length ≤ 1 ∧
      ∀ r, (callback store api event fc).1 = Except.ok r →
        ∃ token, (callback store api event fc).2.filter isDbSet =
          [Call.dbSet fc token "hachyderm.io"]) :=
  ⟨fun s a e => ⟨info_no_dbSet s a e,
      applyCalls_of_no_dbSet _ s (info_no_dbSet s a e)⟩,
   fun s a e => ⟨auth_no_dbSet s a e,
      applyCalls_of_no_dbSet _ s (auth_no_dbSet s a e)⟩,
   fun s a e => ⟨add_to_list_no_dbSet s a e,
      applyCalls_of_no_dbSet _ s (add_to_list_no_dbSet s a e)⟩,
   fun s a e => ⟨remove_from_list_no_dbSet s a e,
      applyCalls_of_no_dbSet _ s (remove_from_list_no_dbSet s a e)⟩,
   fun s a e => ⟨create_list_no_dbSet s a e,
      applyCalls_of_no_dbSet _ s (create_list_no_dbSet s a e)⟩,
   fun s a e => ⟨delete_list_no_dbSet s a e,
      applyCalls_of_no_dbSet _ s (delete_list_no_dbSet s a e)⟩,
   fun s a e fc => callback_writes s a e fc⟩

/-- An OAuth callback event: an authorization code, a known origin, and a
cloud-provider host. -/
def evCb : Event :=
  ⟨none, some [("origin", "none"), ("host", "x.amazonaws.com")],
   some [("code", "c0")]⟩

/-- Witness for C10: replaying `info`'s trace leaves the store unchanged,
and a successful `callback` run writes exactly its fresh cookie. -/
theorem C10_store_frame_witness :
    applyCalls store1 (info store1 apiOkAll evSession).2 = store1 ∧
    ∃ token, (callback store0 apiOkAll evCb "fc-1").2.filter isDbSet =
      [Call.dbSet "fc-1" token "hachyderm.io"] := by
  have h := C10_store_frame
  refine ⟨(h.1 store1 apiOkAll evSession).2, ?_⟩
  have hb : exceptIsOk (callback store0 apiOkAll evCb "fc-1").1 = true := by
    decide
  cases hres : (callback store0 apiOkAll evCb "fc-1").1 with
  | error e =>
    rw [hres] at hb
    exact absurd hb (by simp [exceptIsOk])
  | ok r =>
    exact (h.2.2.2.2.2.2 store0 apiOkAll evCb "fc-1").2 r hres

/-- Claim C4 (confirmed): in the `info` aggregation, each followed
account's `lists` field contains exactly the ids of the lists whose
drained membership contains that account's id; list members that are not
followed are silently dropped, and the output follower list contains
exactly the followed accounts (so an unfollowed member never appears). -/
theorem C4_membership_join (store : Store) (api : Api) (event : Event)
    (cdict : List (String × String)) (cookie : String) (me : Account)
    (followers : List Account) (lists : List MList)
    (accs : Nat → List Account)
    (hp : parse_cookies (event.cookies.getD []) = Except.ok cdict)
    (hk : pyGet cdict "list-manager-cookie" = some cookie)
    (hme : api.me = Except.ok me)
    (hfo : api.account_following me.id = Except.ok followers)
    (hli : api.lists = Except.ok lists)
    (hla : ∀ l ∈ lists, api.list_accounts l.id = Except.ok (accs l.id))
    (hnd : (followers.map Account.id).Nodup) :
    info store api event =
      (Except.ok (Ret.str (Body.jsonInfo
        ⟨lists,
         followers.map (fun x => reducePerson x (listsFor accs lists x.id)),
         ⟨me.username, me.acct ++ "@" ++ domainOf store cookie,
          me.display_name⟩⟩)),
       [Call.dbGet cookie, Call.meCall, Call.accountFollowing me.id,
        Call.listsCall] ++ lists.map (fun l => Call.listAccounts l.id) ++
        [Call.dbGet cookie]) ∧
    (∀ x ∈ followers, ∀ lid,
      lid ∈ listsFor accs lists x.id ↔
        ∃ l ∈ lists, l.id = lid ∧ x.id ∈ (accs l.id).map Account.id) ∧
    (followers.map (fun x =>
      reducePerson x (listsFor accs lists x.id))).map OutPerson.id =
      followers.map (fun x => toString x.id) := by
  refine ⟨info_success store api event cdict cookie me followers lists accs
      hp hk hme hfo hli hla hnd,
    fun x _ lid => mem_listsFor accs lists x.id lid, ?_⟩
  simp [reducePerson]

/-- Witness for C4: with followed accounts `{A, B}` and lists
`L1 = {A, C}`, `L2 = {B}`, the output shows `A.lists = [L1]`,
`B.lists = [L2]`, and C does not appear. -/
theorem C4_membership_join_witness :
    info store1 api4 evSession =
      (Except.ok (Ret.str (Body.jsonInfo
        ⟨[listL1, listL2],
         [reducePerson accA [10], reducePerson accB [20]],
         ⟨"me", "act-me@d.example", "dn-me"⟩⟩)),
       [Call.dbGet "abc", Call.meCall, Call.accountFollowing 7,
        Call.listsCall, Call.listAccounts 10, Call.listAccounts 20,
        Call.dbGet "abc"]) ∧
    (reducePerson accA [10]).id = "1" ∧ (reducePerson accB [20]).id = "2" := by
  have h := C4_membership_join store1 api4 evSession
    [("list-manager-cookie", "abc")] "abc"
    ⟨7, "dn-me", "me", "act-me", "note", "av", 100⟩
    [accA, accB] [listL1, listL2] accs4
    (by decide) (by decide) rfl rfl rfl (fun l _ => rfl) (by decide)
  refine ⟨?_, by decide, by decide⟩
  rw [h.1]
  decide

/-! ### C6: the `me` summary -/

/-- Claim C6 (corrected) — counterexample: the handle in the `me` summary
is built from the caller's `acct` field (handler.py:168), not from
`username`: with `username = "me"`, `acct = "act-me"`, and stored domain
`"d.example"`, the output handle is `"act-me@d.example"`, not
`"me@d.example"`. -/
theorem C6_counterexample :
    info store1 apiOkAll evSession =
      (Except.ok (Ret.str (Body.jsonInfo
        ⟨[], [], ⟨"me", "act-me@d.example", "dn-me"⟩⟩)),
       [Call.dbGet "abc", Call.meCall, Call.accountFollowing 7,
        Call.listsCall, Call.dbGet "abc"]) ∧
    "act-me@d.example" ≠ "me" ++ "@" ++ "d.example" := by
  constructor
  · decide
  · decide

/-- Claim C6 (amended): the `me` summary consists of the caller's
username, display name, and a handle equal to `acct@domain` — `acct`
being the caller's `acct` field, which coincides with `username` for an
account local to its home server — where `domain` is the domain stored in
the session entry for the cookie, and the empty string when the session
lookup returns nothing. -/
theorem C6_me_summary (store : Store) (api : Api) (event : Event)
    (cdict : List (String × String)) (cookie : String) (me : Account)
    (followers : List Account) (lists : List MList)
    (accs : Nat → List Account)
    (hp : parse_cookies (event.cookies.getD []) = Except.ok cdict)
    (hk : pyGet cdict "list-manager-cookie" = some cookie)
    (hme : api.me = Except.ok me)
    (hfo : api.account_following me.id = Except.ok followers)
    (hli : api.lists = Except.ok lists)
    (hla : ∀ l ∈ lists, api.list_accounts l.id = Except.ok (accs l.id))
    (hnd : (followers.map Account.id).Nodup) :
    (∃ r, (info store api event).1 = Except.ok r ∧
      retMe r = some ⟨me.username, me.acct ++ "@" ++ domainOf store cookie,
        me.display_name⟩) ∧
    (Database.get store cookie = none → domainOf store cookie = "") ∧
    (∀ e2, Database.get store cookie = some e2 →
      domainOf store cookie = e2.domain) := by
  have h := info_success store api event cdict cookie me followers lists
    accs hp hk hme hfo hli hla hnd
  refine ⟨⟨Ret.str (Body.jsonInfo
      ⟨lists,
       followers.map (fun x => reducePerson x (listsFor accs lists x.id)),
       ⟨me.username, me.acct ++ "@" ++ domainOf store cookie,
        me.display_name⟩⟩), ?_, rfl⟩,
    fun h2 => by simp [domainOf, h2], fun e2 h2 => by simp [domainOf, h2]⟩
  rw [h]

/-- Witness for C6: with a stored session the handle carries its domain;
with no stored session the domain is the empty string. -/
theorem C6_me_summary_witness :
    (∃ r, (info store1 apiOkAll evSession).1 = Except.ok r ∧
      retMe r = some ⟨"me", "act-me@d.example", "dn-me"⟩) ∧
    (∃ r, (info store0 apiOkAll evSession).1 = Except.ok r ∧
      retMe r = some ⟨"me", "act-me@", "dn-me"⟩) := by
  constructor
  · obtain ⟨r, h1, h2⟩ := (C6_me_summary store1 apiOkAll evSession
      [("list-manager-cookie", "abc")] "abc"
      ⟨7, "dn-me", "me", "act-me", "note", "av", 100⟩ [] [] (fun _ => [])
      (by decide) (by decide) rfl rfl rfl (by simp) (by decide)).1
    refine ⟨r, h1, ?_⟩
    rw [h2]
    decide
  · obtain ⟨r, h1, h2⟩ := (C6_me_summary store0 apiOkAll evSession
      [("list-manager-cookie", "abc")] "abc"
      ⟨7, "dn-me", "me", "act-me", "note", "av", 100⟩ [] [] (fun _ => [])
      (by decide) (by decide) rfl rfl rfl (by simp) (by decide)).1
    refine ⟨r, h1, ?_⟩
    rw [h2]
    decide

/-! ### C7: follower reduction and id stringification -/

/-- Claim C7 (confirmed): every followed account in the successful `info`
output is reduced to exactly the `OutPerson` fields (`id`, `lists`,
`display_name`, `username`, `acct`, `note`, `avatar`), and its numeric id
is emitted as its decimal string form. -/
theorem C7_follower_reduction (store : Store) (api : Api) (event : Event)
    (cdict : List (String × String)) (cookie : String) (me : Account)
    (followers : List Account) (lists : List MList)
    (accs : Nat → List Account)
    (hp : parse_cookies (event.cookies.getD []) = Except.ok cdict)
    (hk : pyGet cdict "list-manager-cookie" = some cookie)
    (hme : api.me = Except.ok me)
    (hfo : api.account_following me.id = Except.ok followers)
    (hli : api.lists = Except.ok lists)
    (hla : ∀ l ∈ lists, api.list_accounts l.id = Except.ok (accs l.id))
    (hnd : (followers.map Account.id).Nodup) :
    info store api event =
      (Except.ok (Ret.str (Body.jsonInfo
        ⟨lists,
         followers.map (fun x => reducePerson x (listsFor accs lists x.id)),
         ⟨me.username, me.acct ++ "@" ++ domainOf store cookie,
          me.display_name⟩⟩)),
       [Call.dbGet cookie, Call.meCall, Call.accountFollowing me.id,
        Call.listsCall] ++ lists.map (fun l => Call.listAccounts l.id) ++
        [Call.dbGet cookie]) ∧
    ∀ x ∈ followers,
      (reducePerson x (listsFor accs lists x.id)).id = toString x.id :=
  ⟨info_success store api event cdict cookie me followers lists accs
    hp hk hme hfo hli hla hnd, fun _ _ => rfl⟩

/-- Witness for C7: a followed account with numeric id
`123456789012345` appears in the output with the literal id string
`"123456789012345"`. -/
theorem C7_follower_reduction_witness :
    info store1 api7 evSession =
      (Except.ok (Ret.str (Body.jsonInfo
        ⟨[],
         [⟨"123456789012345", [], "dn-big", "big", "acct-big", "nb", "avb"⟩],
         ⟨"me", "act-me@d.example", "dn-me"⟩⟩)),
       [Call.dbGet "abc", Call.meCall, Call.accountFollowing 7,
        Call.listsCall, Call.dbGet "abc"]) := by
  have h := C7_follower_reduction store1 api7 evSession
    [("list-manager-cookie", "abc")] "abc"
    ⟨7, "dn-me", "me", "act-me", "note", "av", 100⟩
    [accBig] [] (fun _ => [])
    (by decide) (by decide) rfl rfl rfl (by simp) (by decide)
  rw [h.1]
  decide

